import Mathlib

/-!
Shallow embedding of the AOACON 2026 conference-registration backend:
the pricing calculator (utils/pricing.js), the registration upsert
handler (routes/registration.js, coupon-enabled variant), the payment
ledger routes (routes/payment.js, webhook-enabled variant plus the
legacy failed-payment variant), and the registration-number allocator
(models/Registration.js pre-save hook and routes/admin.js counter and
manual-registration endpoints).

Monetary amounts are naturals (INR, whole rupees).  The handlers use
JS Math.round on 18 percent GST and on the 1.95 percent processing
fee; both are modelled as exact round-half-up rational rounding, which
agrees with the floating-point computation on the amounts in scope.
-/

namespace AOA

/-- Round-half-up of 18 percent of a whole-rupee amount, as computed by
Math.round(n * 0.18). -/
def roundGst18 (n : Nat) : Nat := (n * 18 + 50) / 100

/-- Round-half-up of one point ninety-five percent of a whole-rupee
amount, as computed by Math.round(n * 0.0195). -/
def roundFee195 (n : Nat) : Nat := (n * 195 + 5000) / 10000

/-- Whitespace trim on both ends, the JS String trim, computed over
the character list. -/
def jsTrim (s : String) : String :=
  String.mk (((s.toList.dropWhile Char.isWhitespace).reverse.dropWhile
    Char.isWhitespace).reverse)

/-- ASCII lower-casing, the JS toLowerCase on the strings in scope. -/
def jsToLower (s : String) : String :=
  String.mk (s.toList.map Char.toLower)

/-- ASCII upper-casing, the JS toUpperCase on the strings in scope. -/
def jsToUpper (s : String) : String :=
  String.mk (s.toList.map Char.toUpper)

/-- Role-string normalization shared by the pricing module and the
registration routes: trims, lower-cases, and maps legacy display names
onto the canonical AOA, NON_AOA and PGS codes.  A falsy (empty) input
is returned unchanged, like the JS guard. -/
def normalizeRole (role : String) : String :=
  if role = "" then role
  else
    let trimmed := jsTrim role
    let lower := jsToLower trimmed
    if lower = "aoa member" then "AOA"
    else if lower = "non-aoa member" then "NON_AOA"
    else if lower = "non aoa member" then "NON_AOA"
    else if lower = "pgs & fellows" then "PGS"
    else if lower = "pgs and fellows" then "PGS"
    else if lower = "aoa" then "AOA"
    else if lower = "non_aoa" then "NON_AOA"
    else if lower = "non-aoa" then "NON_AOA"
    else if lower = "pgs" then "PGS"
    else trimmed

/-- Base conference price table keyed by (role, phase); unknown keys
price at 0 like the JS optional-chaining lookup. -/
def getConferencePrice (userRole bookingPhase : String) : Nat :=
  let role := normalizeRole userRole
  if role = "AOA" then
    if bookingPhase = "EARLY_BIRD" then 8000
    else if bookingPhase = "REGULAR" then 10000
    else if bookingPhase = "SPOT" then 13000
    else 0
  else if role = "NON_AOA" then
    if bookingPhase = "EARLY_BIRD" then 11000
    else if bookingPhase = "REGULAR" then 13000
    else if bookingPhase = "SPOT" then 16000
    else 0
  else if role = "PGS" then
    if bookingPhase = "EARLY_BIRD" then 7000
    else if bookingPhase = "REGULAR" then 9000
    else if bookingPhase = "SPOT" then 12000
    else 0
  else 0

/-- Total package price for conference plus workshop; 0 in SPOT. -/
def getWorkshopTotalPrice (userRole bookingPhase : String) : Nat :=
  let role := normalizeRole userRole
  if role = "AOA" then
    if bookingPhase = "EARLY_BIRD" then 10000
    else if bookingPhase = "REGULAR" then 12000
    else 0
  else if role = "NON_AOA" then
    if bookingPhase = "EARLY_BIRD" then 13000
    else if bookingPhase = "REGULAR" then 15000
    else 0
  else if role = "PGS" then
    if bookingPhase = "EARLY_BIRD" then 9000
    else if bookingPhase = "REGULAR" then 11000
    else 0
  else 0

/-- Total package price for conference plus life membership; nonzero
only for NON_AOA outside SPOT. -/
def getComboPrice (userRole bookingPhase : String) : Nat :=
  let role := normalizeRole userRole
  if role = "NON_AOA" then
    if bookingPhase = "EARLY_BIRD" then 14000
    else if bookingPhase = "REGULAR" then 16000
    else 0
  else 0

/-- Incremental workshop add-on: total-with-workshop minus base price,
floored at 0, and 0 outright when the workshop total is 0. -/
def getWorkshopAddOnPrice (userRole bookingPhase : String) : Nat :=
  let workshopTotal := getWorkshopTotalPrice userRole bookingPhase
  let baseTotal := getConferencePrice userRole bookingPhase
  if 0 < workshopTotal then (max 0 ((workshopTotal : Int) - baseTotal)).toNat else 0

/-- Incremental life-membership add-on: combo total minus base price,
floored at 0, and 0 outright when the combo total is 0. -/
def getLifeMembershipAddOnPrice (userRole bookingPhase : String) : Nat :=
  let comboTotal := getComboPrice userRole bookingPhase
  let baseTotal := getConferencePrice userRole bookingPhase
  if 0 < comboTotal then (max 0 ((comboTotal : Int) - baseTotal)).toNat else 0

/-- AOA Certified Course add-on: flat 5000 for AOA and NON_AOA, 0 for
everyone else; phase-independent. -/
def getAOACourseAddOnPrice (userRole : String) : Nat :=
  let role := normalizeRole userRole
  if role = "AOA" then 5000
  else if role = "NON_AOA" then 5000
  else 0

/-- Price breakdown returned by the pricing calculator. -/
structure PricingTotals where
  basePrice : Nat
  workshopAddOn : Nat
  aoaCourseAddOn : Nat
  lifeMembershipAddOn : Nat
  packageBase : Nat
  gst : Nat
  totalAmount : Nat
  bookingPhase : String
deriving Repr, DecidableEq

/-- Calculate registration totals using base conference plus add-ons,
as in calculateRegistrationTotals of utils/pricing.js. -/
def calculateRegistrationTotals (userRole bookingPhase : String)
    (addWorkshop addAoaCourse addLifeMembership : Bool) : PricingTotals :=
  let normalizedRole := normalizeRole userRole
  let basePrice := getConferencePrice normalizedRole bookingPhase
  let workshopAddOn := if addWorkshop then getWorkshopAddOnPrice normalizedRole bookingPhase else 0
  let aoaCourseAddOn := if addAoaCourse then getAOACourseAddOnPrice normalizedRole else 0
  let lifeMembershipAddOn :=
    if addLifeMembership then getLifeMembershipAddOnPrice normalizedRole bookingPhase else 0
  let packageBase := basePrice + workshopAddOn + aoaCourseAddOn + lifeMembershipAddOn
  let gst := roundGst18 packageBase
  { basePrice := basePrice
    workshopAddOn := workshopAddOn
    aoaCourseAddOn := aoaCourseAddOn
    lifeMembershipAddOn := lifeMembershipAddOn
    packageBase := packageBase
    gst := gst
    totalAmount := packageBase + gst
    bookingPhase := bookingPhase }

/-- Per-add-on incremental prices exposed to the handlers, as in
getAddOnPricing of utils/pricing.js. -/
structure AddOnPricing where
  workshopPriceWithoutGST : Nat
  aoaCoursePriceWithoutGST : Nat
  lifeMembershipPriceWithoutGST : Nat
deriving Repr, DecidableEq

/-- Assemble the add-on pricing view; the certified-course entry is
zeroed in SPOT. -/
def getAddOnPricing (userRole bookingPhase : String) : AddOnPricing :=
  { workshopPriceWithoutGST := getWorkshopAddOnPrice userRole bookingPhase
    aoaCoursePriceWithoutGST :=
      if bookingPhase = "SPOT" then 0 else getAOACourseAddOnPrice userRole
    lifeMembershipPriceWithoutGST := getLifeMembershipAddOnPrice userRole bookingPhase }

/-- Payment status of a Registration document. -/
inductive RegPaymentStatus where
  | PENDING
  | PAID
  | FAILED
deriving Repr, DecidableEq

/-- Stored Registration document: the fields written by the
registration upsert handler.  An absent or empty selectedWorkshop is
modelled as none; the user id and file upload are outside the model. -/
structure Registration where
  registrationType : String
  addWorkshop : Bool
  selectedWorkshop : Option String
  workshopAddOn : Nat
  accompanyingPersons : Nat
  accompanyingBase : Nat
  accompanyingGST : Nat
  addAoaCourse : Bool
  aoaCourseBase : Nat
  aoaCourseGST : Nat
  addLifeMembership : Bool
  lifeMembershipBase : Nat
  bookingPhase : String
  basePrice : Nat
  packageBase : Nat
  packageGST : Nat
  totalBase : Nat
  totalGST : Nat
  subtotalWithGST : Nat
  processingFee : Nat
  totalAmount : Nat
  couponCode : Option String
  couponDiscount : Nat
  lifetimeMembershipId : Option String
  totalPaid : Nat
  paymentStatus : RegPaymentStatus
deriving Repr, DecidableEq

/-- Coupon feature flag of routes/registration.js. -/
def COUPON_ENABLED : Bool := true

/-- Flat-discount coupon table of routes/registration.js. -/
def couponTable (code : String) : Option Nat :=
  if code = "AOACON5123" then some 500
  else if code = "DISCOUNT10002026" then some 1000
  else none

/-- Trim and upper-case a submitted coupon code; a missing or empty
code normalizes to the empty string. -/
def normalizeCouponCode (code : Option String) : String :=
  match code with
  | none => ""
  | some s => if s = "" then "" else jsToUpper (jsTrim s)

/-- Resolve a coupon code against the table, clamping the discount to
the base price; unknown or empty codes resolve to no coupon. -/
def resolveCouponDiscount (code : String) (basePrice : Nat) : Option String × Nat :=
  let normalized := normalizeCouponCode (some code)
  if normalized = "" then (none, 0)
  else
    match couponTable normalized with
    | none => (none, 0)
    | some d => (some normalized, min d basePrice)

/-- Checkout form as parsed by the upsert handler: boolean flags come
in as the string true, the accompanying-person count as a digit
string; both are modelled post-parse. -/
structure UpsertRequest where
  selectedWorkshop : Option String
  accompanyingPersons : Nat
  addWorkshop : Bool
  addAoaCourse : Bool
  addLifeMembership : Bool
  couponCode : Option String
deriving Repr, DecidableEq

/-- Truthiness of an optional string field, as tested by the handler:
missing and empty are both falsy. -/
def strTruthy (s : Option String) : Bool :=
  match s with
  | none => false
  | some v => v ≠ ""

/-- Truth of the sticky-merge precondition: the stored registration
exists and is PAID. -/
def upsertIsPaid (existing : Option Registration) : Bool :=
  match existing with
  | some r => r.paymentStatus = RegPaymentStatus.PAID
  | none => false

/-- Stored addWorkshop flag, false with no stored registration. -/
def exAddWorkshop (existing : Option Registration) : Bool :=
  match existing with | some r => r.addWorkshop | none => false

/-- Stored addAoaCourse flag, false with no stored registration. -/
def exAddAoaCourse (existing : Option Registration) : Bool :=
  match existing with | some r => r.addAoaCourse | none => false

/-- Stored addLifeMembership flag, false with no stored registration. -/
def exAddLifeMembership (existing : Option Registration) : Bool :=
  match existing with | some r => r.addLifeMembership | none => false

/-- Sticky union merge of the workshop selection flag: a paid
registration keeps an add-on it already owns even when the new request
omits it. -/
def upsertWantsWorkshop (existing : Option Registration) (req : UpsertRequest) : Bool :=
  req.addWorkshop || (upsertIsPaid existing && exAddWorkshop existing)

/-- Sticky union merge of the certified-course flag. -/
def upsertWantsAoaCourse (existing : Option Registration) (req : UpsertRequest) : Bool :=
  req.addAoaCourse || (upsertIsPaid existing && exAddAoaCourse existing)

/-- Sticky union merge of the life-membership flag. -/
def upsertWantsLifeMembership (existing : Option Registration) (req : UpsertRequest) : Bool :=
  req.addLifeMembership || (upsertIsPaid existing && exAddLifeMembership existing)

/-- Selected workshop after the sticky merge: a paid registration with
a stored workshop keeps its stored choice. -/
def upsertSelectedWorkshop (existing : Option Registration) (req : UpsertRequest) :
    Option String :=
  match existing with
  | some r =>
    if r.paymentStatus = RegPaymentStatus.PAID && r.addWorkshop && strTruthy r.selectedWorkshop
    then r.selectedWorkshop
    else req.selectedWorkshop
  | none => req.selectedWorkshop

/-- Booking phase used for pricing: frozen at the stored phase once
paid, otherwise the current wall-clock phase. -/
def upsertBookingPhase (currentPhase : String) (existing : Option Registration) : String :=
  match existing with
  | some r =>
    if r.paymentStatus = RegPaymentStatus.PAID then r.bookingPhase else currentPhase
  | none => currentPhase

/-- Whether the stored registration already requested the certified
course, which exempts it from the capacity re-check. -/
def upsertWasAoaRequested (existing : Option Registration) : Bool :=
  match existing with
  | some r => r.registrationType = "AOA_CERTIFIED_COURSE" || r.addAoaCourse
  | none => false

/-- Coupon resolution step of the upsert handler: the handler reads
the stored coupon fields first but overwrites them on every path, so
the outcome depends only on the submitted code and the base price. -/
def upsertCouponResolution (req : UpsertRequest) (basePrice : Nat) :
    Except String (Option String × Nat) :=
  let normalizedRequestedCoupon := normalizeCouponCode req.couponCode
  if normalizedRequestedCoupon ≠ "" then
    if !COUPON_ENABLED then
      .error "Coupons are currently disabled."
    else
      let resolved := resolveCouponDiscount normalizedRequestedCoupon basePrice
      match resolved.1 with
      | none => .error "Invalid coupon code."
      | some c => .ok (some c, resolved.2)
  else
    .ok (none, 0)

/-- First client error raised by the upsert handler, in source order,
or none when the request passes every guard. -/
def upsertError (userRole currentPhase : String) (aoaCourseCount : Nat)
    (existing : Option Registration) (req : UpsertRequest) : Option String :=
  let normalizedRole := normalizeRole userRole
  if req.addAoaCourse && (normalizedRole = "PGS") then
    some "AOA Certified Course is only available for AOA and Non-AOA members"
  else if req.addLifeMembership && !(normalizedRole = "NON_AOA") then
    some "AOA Life Membership is only available for Non-AOA members"
  else if (normalizedRole = "AOA") && req.addWorkshop && req.addAoaCourse then
    some "AOA members can choose either Workshop or AOA Certified Course"
  else if upsertWantsWorkshop existing req
      && !(strTruthy (upsertSelectedWorkshop existing req)) then
    some "Workshop selection is required"
  else if upsertWantsAoaCourse existing req && !(upsertWasAoaRequested existing)
      && 40 ≤ aoaCourseCount then
    some "AOA Certified Course seats are full"
  else
    let bookingPhase := upsertBookingPhase currentPhase existing
    let addOnPricing := getAddOnPricing normalizedRole bookingPhase
    if upsertWantsWorkshop existing req && addOnPricing.workshopPriceWithoutGST ≤ 0
        && !(exAddWorkshop existing) then
      some "Workshops are not available in this phase"
    else if upsertWantsAoaCourse existing req && (bookingPhase = "SPOT")
        && !(exAddAoaCourse existing) then
      some "AOA Certified Course is not available for spot registration"
    else if upsertWantsLifeMembership existing req
        && addOnPricing.lifeMembershipPriceWithoutGST ≤ 0
        && !(exAddLifeMembership existing) then
      some "AOA Life Membership is not available in this phase"
    else
      let pricingTotals :=
        calculateRegistrationTotals normalizedRole bookingPhase
          (upsertWantsWorkshop existing req) (upsertWantsAoaCourse existing req)
          (upsertWantsLifeMembership existing req)
      if pricingTotals.packageBase ≤ 0 then
        some "Pricing not available for this package in current phase"
      else
        match upsertCouponResolution req pricingTotals.basePrice with
        | .error e => some e
        | .ok _ => none

/-- Document written by the upsert handler once every guard passed:
the recomputed price breakdown and the merged selection flags, with
totalPaid carried over and paymentStatus re-derived against the new
total. -/
def upsertResult (userRole currentPhase : String) (freshMembershipId : String)
    (existing : Option Registration) (req : UpsertRequest) : Registration :=
  let normalizedRole := normalizeRole userRole
  let wantsWorkshop := upsertWantsWorkshop existing req
  let wantsAoaCourse := upsertWantsAoaCourse existing req
  let wantsLifeMembership := upsertWantsLifeMembership existing req
  let bookingPhase := upsertBookingPhase currentPhase existing
  let pricingTotals :=
    calculateRegistrationTotals normalizedRole bookingPhase
      wantsWorkshop wantsAoaCourse wantsLifeMembership
  let accompanyingCount := req.accompanyingPersons
  let accompanyingBase := accompanyingCount * 7000
  let basePrice := pricingTotals.basePrice
  let couponPair : Option String × Nat :=
    match upsertCouponResolution req basePrice with
    | .ok p => p
    | .error _ => (none, 0)
  let couponDiscount : Nat := couponPair.2
  let discountedBasePrice := (max 0 ((basePrice : Int) - (couponDiscount : Int))).toNat
  let packageBase :=
    discountedBasePrice + pricingTotals.workshopAddOn +
      pricingTotals.aoaCourseAddOn + pricingTotals.lifeMembershipAddOn
  let totalBase := packageBase + accompanyingBase
  let totalGST := roundGst18 totalBase
  let subtotalWithGST := totalBase + totalGST
  let processingFee := roundFee195 subtotalWithGST
  let finalAmount := subtotalWithGST + processingFee
  let totalPaid := match existing with | some r => r.totalPaid | none => 0
  { registrationType := if wantsWorkshop then "WORKSHOP_CONFERENCE" else "CONFERENCE_ONLY"
    addWorkshop := wantsWorkshop
    selectedWorkshop :=
      if wantsWorkshop then upsertSelectedWorkshop existing req else none
    workshopAddOn := pricingTotals.workshopAddOn
    accompanyingPersons := accompanyingCount
    accompanyingBase := accompanyingBase
    accompanyingGST := roundGst18 accompanyingBase
    addAoaCourse := wantsAoaCourse
    aoaCourseBase := pricingTotals.aoaCourseAddOn
    aoaCourseGST :=
      if 0 < pricingTotals.aoaCourseAddOn then roundGst18 pricingTotals.aoaCourseAddOn else 0
    addLifeMembership := wantsLifeMembership
    lifeMembershipBase := pricingTotals.lifeMembershipAddOn
    bookingPhase := bookingPhase
    basePrice := basePrice
    packageBase := packageBase
    packageGST := roundGst18 packageBase
    totalBase := totalBase
    totalGST := totalGST
    subtotalWithGST := subtotalWithGST
    processingFee := processingFee
    totalAmount := finalAmount
    couponCode := couponPair.1
    couponDiscount := couponDiscount
    lifetimeMembershipId :=
      if wantsLifeMembership then
        match existing with
        | some r =>
          match r.lifetimeMembershipId with
          | some m => some m
          | none => some freshMembershipId
        | none => some freshMembershipId
      else none
    totalPaid := totalPaid
    paymentStatus :=
      if finalAmount ≤ totalPaid then RegPaymentStatus.PAID else RegPaymentStatus.PENDING }

/-- Registration upsert handler (POST / of routes/registration.js,
coupon-enabled variant).  Inputs that the handler reads from the
environment are passed explicitly: the authenticated user role, the
wall-clock booking phase, the current certified-course seat count, a
fresh lifetime-membership id, and the stored Registration of this user
if one exists.  Guards are evaluated in source order by upsertError;
on success the document of upsertResult is stored.  Database writes
always succeed in the model; an error result carries the client-facing
message and leaves the store untouched. -/
def registrationUpsert (userRole currentPhase : String) (aoaCourseCount : Nat)
    (freshMembershipId : String) (existing : Option Registration)
    (req : UpsertRequest) : Except String Registration :=
  match upsertError userRole currentPhase aoaCourseCount existing req with
  | some e => .error e
  | none => .ok (upsertResult userRole currentPhase freshMembershipId existing req)

/-- Stored Registration after an upsert attempt: the new document on
success, the unchanged prior document when the handler rejected. -/
def storedAfterUpsert (userRole currentPhase : String) (aoaCourseCount : Nat)
    (freshMembershipId : String) (ex : Registration) (req : UpsertRequest) : Registration :=
  match registrationUpsert userRole currentPhase aoaCourseCount freshMembershipId (some ex) req with
  | .ok r => r
  | .error _ => ex

/-- Lifecycle status of a Payment row. -/
inductive PaymentStatus where
  | CREATED
  | SUCCESS
  | FAILED
deriving Repr, DecidableEq

/-- Payment row: one row per payment attempt.  The registration id is
optional because accommodation payments carry a booking id instead;
gateway ids that the code treats as falsy when absent are modelled as
none. -/
structure Payment where
  registrationId : Option Nat
  amount : Nat
  paymentType : String
  razorpayOrderId : String
  razorpayPaymentId : Option String
  razorpaySignature : Option String
  status : PaymentStatus
  failureReason : Option String
deriving Repr, DecidableEq

/-- Slice of a Registration document touched by the payment routes. -/
structure RegPayView where
  id : Nat
  totalAmount : Nat
  totalPaid : Nat
  paymentStatus : RegPaymentStatus
  razorpayPaymentId : Option String
deriving Repr, DecidableEq

/-- Persistent state seen by the payment routes: the Payment ledger
and the Registration documents.  Accommodation bookings are a separate
collection outside the modelled claims.  Registration ids are unique. -/
structure PayState where
  payments : List Payment
  regs : List RegPayView
deriving Repr, DecidableEq

/-- Razorpay key secret hardcoded in routes/payment.js. -/
def razorpayKeySecret : String := "sGAW1CE3Mnpus4PfYMdUAp8i"

/-- Webhook secret: the env default in routes/payment.js. -/
def razorpayWebhookSecret : String := "sGAW1CE3Mnpus4PfYMdUAp8i"

/-- Find the first Payment row with the given gateway order id, as
Payment.findOne on razorpayOrderId. -/
def findPayment (ps : List Payment) (oid : String) : Option Payment :=
  ps.find? (fun p => p.razorpayOrderId = oid)

/-- Save a modification of the first Payment row matching the gateway
order id, leaving every other row unchanged. -/
def updateFirstPayment (ps : List Payment) (oid : String) (f : Payment → Payment) :
    List Payment :=
  match ps with
  | [] => []
  | p :: rest =>
    if p.razorpayOrderId = oid then f p :: rest
    else p :: updateFirstPayment rest oid f

/-- Sum of the amounts of SUCCESS payments of one registration: the
aggregation pipeline of updateRegistrationPaymentStatus. -/
def successSum (ps : List Payment) (rid : Nat) : Nat :=
  (ps.filter (fun p => p.registrationId = some rid ∧ p.status = PaymentStatus.SUCCESS)).foldr
    (fun p acc => p.amount + acc) 0

/-- Update one Registration document by id. -/
def updateReg (regs : List RegPayView) (rid : Nat) (f : RegPayView → RegPayView) :
    List RegPayView :=
  regs.map (fun r => if r.id = rid then f r else r)

/-- Field write applied to the Registration document by
updateRegistrationPaymentStatus: the recomputed status and totalPaid,
plus the gateway payment id when one was supplied. -/
def urpsWrite (newStatus : RegPaymentStatus) (totalPaid : Nat) (pid : Option String)
    (r : RegPayView) : RegPayView :=
  { r with
    paymentStatus := newStatus
    totalPaid := totalPaid
    razorpayPaymentId :=
      match pid with
      | some s => some s
      | none => r.razorpayPaymentId }

/-- Recompute a Registration payment aggregate from the ledger:
totalPaid is re-derived as the SUCCESS sum, paymentStatus is PAID
exactly when that sum covers totalAmount, and the gateway payment id
is recorded when supplied (updateRegistrationPaymentStatus in
routes/payment.js). -/
def updateRegistrationPaymentStatus (st : PayState) (rid : Nat) (pid : Option String) :
    PayState :=
  let totalPaid := successSum st.payments rid
  match st.regs.find? (fun r => r.id = rid) with
  | none => st
  | some reg =>
    let newStatus :=
      if reg.totalAmount ≤ totalPaid then RegPaymentStatus.PAID else RegPaymentStatus.PENDING
    { st with regs := updateReg st.regs rid (urpsWrite newStatus totalPaid pid) }

/-- Field write applied to the Payment row by a successful
verification: mark it SUCCESS and record the gateway payment id and
signature. -/
def verifyWrite (pid sig : String) (p : Payment) : Payment :=
  { p with
    status := PaymentStatus.SUCCESS
    razorpayPaymentId := some pid
    razorpaySignature := some sig }

/-- Client-reported payment verification (POST /verify).  The HMAC
primitive is passed in as a function from secret and message to hex
digest.  Returns the HTTP status together with the resulting state;
the post-success email, QR and invoice side effects are best-effort
and outside the state model. -/
def verifyPayment (hmac : String → String → String) (st : PayState)
    (oid pid sig : String) : Nat × PayState :=
  let expectedSignature := hmac razorpayKeySecret (oid ++ "|" ++ pid)
  if expectedSignature ≠ sig then (400, st)
  else
    match findPayment st.payments oid with
    | none => (404, st)
    | some payment =>
      let st1 : PayState :=
        { st with payments := updateFirstPayment st.payments oid (verifyWrite pid sig) }
      if payment.paymentType = "REGISTRATION" then
        match payment.registrationId with
        | some rid => (200, updateRegistrationPaymentStatus st1 rid (some pid))
        | none => (200, st1)
      else
        (200, st1)

/-- Parsed webhook payload: the event name and the gateway ids carried
in the payment and order entities.  Parsing of the raw JSON body is
outside the model; the raw body string is still passed separately
because the signature is computed over it. -/
structure WebhookEvent where
  eventType : String
  paymentEntityOrderId : Option String
  orderEntityId : Option String
  paymentEntityId : Option String
deriving Repr, DecidableEq

/-- Field write applied to the Payment row by the webhook: mark it
SUCCESS and record the gateway payment id when the event carries
one. -/
def webhookWrite (evPid : Option String) (p : Payment) : Payment :=
  { p with
    status := PaymentStatus.SUCCESS
    razorpayPaymentId :=
      match evPid with
      | some x => some x
      | none => p.razorpayPaymentId }

/-- State transition of the webhook once the signature and the event
type have been accepted and a gateway order id extracted: mark the
Payment SUCCESS unless it already is, then recompute the Registration
aggregate from the ledger. -/
def webhookApply (st : PayState) (oid : String) (evPid : Option String) : PayState :=
  match findPayment st.payments oid with
  | none => st
  | some payment =>
    let st1 : PayState :=
      if payment.status ≠ PaymentStatus.SUCCESS then
        { st with payments := updateFirstPayment st.payments oid (webhookWrite evPid) }
      else st
    if payment.paymentType = "REGISTRATION" then
      match payment.registrationId with
      | some rid => updateRegistrationPaymentStatus st1 rid evPid
      | none => st1
    else st1

/-- Gateway webhook endpoint (POST /webhook).  Checks the header
signature against the HMAC of the raw body under the webhook secret,
acts only on payment.captured and order.paid, marks the Payment
SUCCESS if it is not already, and recomputes the Registration
aggregate from the ledger.  Every recognized outcome, including an
unknown order id or a missing payment record, is acknowledged with
200; only a missing or mismatched signature is answered 400. -/
def webhookHandler (hmac : String → String → String) (st : PayState)
    (sig : Option String) (rawBody : String) (ev : WebhookEvent) : Nat × PayState :=
  let expectedSignature := hmac razorpayWebhookSecret rawBody
  match sig with
  | none => (400, st)
  | some s =>
    if s ≠ expectedSignature then (400, st)
    else if ev.eventType ≠ "payment.captured" ∧ ev.eventType ≠ "order.paid" then (200, st)
    else
      let razorpayOrderId :=
        match ev.paymentEntityOrderId with
        | some o => some o
        | none => ev.orderEntityId
      match razorpayOrderId with
      | none => (200, st)
      | some oid => (200, webhookApply st oid ev.paymentEntityId)

/-- Field write applied to the Payment row by the admin
reconciliation: mark it SUCCESS and record the captured gateway
payment id. -/
def reconcileWrite (cid : String) (p : Payment) : Payment :=
  { p with
    status := PaymentStatus.SUCCESS
    razorpayPaymentId := some cid }

/-- Admin manual reconciliation (POST /reconcile/order).  The gateway
order-payments fetch is passed in as the optional id of a captured
payment; with none found the endpoint acknowledges without mutating. -/
def reconcileOrder (st : PayState) (oid : String) (capturedId : Option String) :
    Nat × PayState :=
  if oid = "" then (400, st)
  else
    match capturedId with
    | none => (200, st)
    | some cid =>
      match findPayment st.payments oid with
      | none => (404, st)
      | some payment =>
        let st1 : PayState :=
          if payment.status ≠ PaymentStatus.SUCCESS then
            { st with payments := updateFirstPayment st.payments oid (reconcileWrite cid) }
          else st
        if payment.paymentType = "REGISTRATION" then
          match payment.registrationId with
          | some rid => (200, updateRegistrationPaymentStatus st1 rid (some cid))
          | none => (200, st1)
        else
          (200, st1)

/-- Field write applied to the Payment row by a client failure
report: mark it FAILED with the reported description or the default
reason. -/
def failWrite (desc : Option String) (p : Payment) : Payment :=
  { p with
    status := PaymentStatus.FAILED
    failureReason := some (desc.getD "Payment failed") }

/-- Client failure report, webhook-era variant (POST /failed in the
routes/payment.js revision that also defines the webhook): marks the
Payment FAILED with a reason and leaves the Registration documents
untouched. -/
def reportFailed (st : PayState) (oid : String) (desc : Option String) : Nat × PayState :=
  match findPayment st.payments oid with
  | none => (200, st)
  | some _ =>
    (200, { st with payments := updateFirstPayment st.payments oid (failWrite desc) })

/-- Client failure report, legacy variant (POST /failed in
src/routes/payment.js): additionally writes paymentStatus FAILED
directly onto the parent Registration document. -/
def reportFailedLegacy (st : PayState) (oid : String) (desc : Option String) :
    Nat × PayState :=
  match findPayment st.payments oid with
  | none => (200, st)
  | some payment =>
    let st1 : PayState :=
      { st with payments := updateFirstPayment st.payments oid (failWrite desc) }
    if payment.paymentType = "REGISTRATION" then
      match payment.registrationId with
      | some rid =>
        (200,
          { st1 with
            regs := updateReg st1.regs rid (fun r =>
              { r with paymentStatus := RegPaymentStatus.FAILED }) })
      | none => (200, st1)
    else
      (200, st1)

/-- Ledger invariant claimed by the spec: every Registration carries
exactly the SUCCESS sum of its Payment rows as totalPaid, and is PAID
precisely when that covers totalAmount. -/
def ledgerInv (st : PayState) : Prop :=
  ∀ r ∈ st.regs,
    r.totalPaid = successSum st.payments r.id ∧
    (r.paymentStatus = RegPaymentStatus.PAID ↔ r.totalAmount ≤ r.totalPaid)

instance (st : PayState) : Decidable (ledgerInv st) := by
  unfold ledgerInv
  infer_instance

/-- State of the registration-number allocator: the Counter document
for registrationNumber (none when not yet bootstrapped) and the
numeric suffixes of the registration numbers in use.  Registration
numbers are the fixed AOA2026- stem followed by the zero-padded
suffix, so suffixes determine the numbers. -/
structure AllocState where
  counter : Option Nat
  used : List Nat
deriving Repr, DecidableEq

/-- Allocator state of an empty database. -/
def initialAllocState : AllocState := { counter := none, used := [] }

/-- Maximum numeric suffix among existing registration numbers, 0 when
none exist (getMaxRegistrationSeq and the bootstrap aggregation). -/
def maxUsedSeq (used : List Nat) : Nat :=
  used.foldr max 0

/-- Lazy counter bootstrap (ensureRegistrationCounter): when the
Counter document is absent, seed it at the maximum existing suffix;
the duplicate-key race on the seed insert is swallowed. -/
def ensureRegistrationCounter (s : AllocState) : AllocState :=
  match s.counter with
  | some _ => s
  | none => { s with counter := some (maxUsedSeq s.used) }

/-- Auto allocation in the Registration pre-save hook: bootstrap the
counter, atomically increment-and-read it, and stamp the new document
with the returned sequence. -/
def autoAllocate (s : AllocState) : AllocState × Nat :=
  let s1 := ensureRegistrationCounter s
  let newSeq := s1.counter.getD 0 + 1
  ({ counter := some newSeq, used := newSeq :: s1.used }, newSeq)

/-- Probe forward from a starting sequence for a suffix not in use,
giving up at the hardcoded 100000 ceiling (findNextAvailableRegistration
in routes/admin.js).  The fuel equals the remaining probes below the
ceiling. -/
def probeFreeSeq (used : List Nat) (seq fuel : Nat) : Option Nat :=
  match fuel with
  | 0 => none
  | fuel + 1 =>
    if seq < 100000 then
      if seq ∈ used then probeFreeSeq used (seq + 1) fuel
      else some seq
    else none

/-- Probe-and-reserve scan starting at the requested sequence, floored
at 1. -/
def findNextAvailableRegistration (used : List Nat) (startSeq : Nat) : Option Nat :=
  probeFreeSeq used (max 1 startSeq) 100000

/-- Admin manual registration allocation (POST /manual-registrations):
probe for the next free suffix, create the registration with it, then
raise the shared counter to at least the consumed suffix, creating the
counter at that suffix when absent and never lowering it.  A failed
probe throws before any write. -/
def manualAllocate (s : AllocState) (startSeq : Nat) : Option (AllocState × Nat) :=
  match findNextAvailableRegistration s.used startSeq with
  | none => none
  | some seq =>
    let used1 := seq :: s.used
    let counter1 :=
      match s.counter with
      | none => some seq
      | some c => if c < seq then some seq else some c
    some ({ counter := counter1, used := used1 }, seq)

/-- Admin counter update (PUT /counters/registration-number): rejected
when the requested value is below the maximum suffix in use, otherwise
the counter is upserted to exactly the requested value. -/
def adminSetCounter (s : AllocState) (requested : Nat) : Except String AllocState :=
  if requested < maxUsedSeq s.used then
    .error "Counter cannot be set below max used."
  else
    .ok { s with counter := some requested }

/-- One allocator operation: an auto-increment allocation, an admin
probe-and-reserve allocation from a starting point, or an admin
counter update. -/
inductive AllocOp where
  | auto
  | manual (startSeq : Nat)
  | setCounter (requested : Nat)
deriving Repr, DecidableEq

/-- Apply one allocator operation; rejected or failed operations leave
the state unchanged. -/
def applyAllocOp (s : AllocState) (op : AllocOp) : AllocState :=
  match op with
  | .auto => (autoAllocate s).1
  | .manual startSeq =>
    match manualAllocate s startSeq with
    | none => s
    | some (s1, _) => s1
  | .setCounter v =>
    match adminSetCounter s v with
    | .error _ => s
    | .ok s1 => s1

/-- Run a sequence of allocator operations from a state. -/
def runAllocOps (s : AllocState) (ops : List AllocOp) : AllocState :=
  ops.foldl applyAllocOp s

/-- Allocator invariant: no duplicate suffix is ever issued, and the
stored counter dominates every suffix in use (with an absent counter
only in the empty database). -/
def allocInv (s : AllocState) : Prop :=
  s.used.Nodup ∧
  (match s.counter with
   | some c => ∀ n ∈ s.used, n ≤ c
   | none => s.used = [])

instance (s : AllocState) : Decidable (allocInv s) := by
  unfold allocInv
  cases s.counter <;> simp <;> infer_instance

/-- Concrete stand-in for the HMAC-SHA256 primitive, used to evaluate
the handlers on closed inputs; it is injective enough for the
fixtures, which only compare digests for equality. -/
def hmacTag (key msg : String) : String := key ++ "." ++ msg

/-- Fixture: a fully paid registration with one SUCCESS payment and a
second, still open payment attempt on a different gateway order. -/
def paidLedgerState : PayState :=
  { payments :=
      [ { registrationId := some 1, amount := 24060, paymentType := "REGISTRATION",
          razorpayOrderId := "order_A", razorpayPaymentId := some "pay_A",
          razorpaySignature := none, status := PaymentStatus.SUCCESS, failureReason := none },
        { registrationId := some 1, amount := 100, paymentType := "REGISTRATION",
          razorpayOrderId := "order_B", razorpayPaymentId := none,
          razorpaySignature := none, status := PaymentStatus.CREATED, failureReason := none } ]
    regs :=
      [ { id := 1, totalAmount := 24060, totalPaid := 24060,
          paymentStatus := RegPaymentStatus.PAID, razorpayPaymentId := some "pay_A" } ] }

/-- Fixture: a registration whose single payment already succeeded. -/
def successPaymentState : PayState :=
  { payments :=
      [ { registrationId := some 1, amount := 5000, paymentType := "REGISTRATION",
          razorpayOrderId := "ord1", razorpayPaymentId := some "pay1",
          razorpaySignature := none, status := PaymentStatus.SUCCESS, failureReason := none } ]
    regs :=
      [ { id := 1, totalAmount := 5000, totalPaid := 5000,
          paymentStatus := RegPaymentStatus.PAID, razorpayPaymentId := some "pay1" } ] }

/-- Fixture: a registration with one open payment attempt. -/
def pendingPaymentState : PayState :=
  { payments :=
      [ { registrationId := some 1, amount := 5000, paymentType := "REGISTRATION",
          razorpayOrderId := "ord1", razorpayPaymentId := none,
          razorpaySignature := none, status := PaymentStatus.CREATED, failureReason := none } ]
    regs :=
      [ { id := 1, totalAmount := 5000, totalPaid := 0,
          paymentStatus := RegPaymentStatus.PENDING, razorpayPaymentId := none } ] }

/-- Fixture: a payment attempt already marked FAILED. -/
def failedPayment0 : Payment :=
  { registrationId := some 1, amount := 5000, paymentType := "REGISTRATION",
    razorpayOrderId := "ord1", razorpayPaymentId := none,
    razorpaySignature := none, status := PaymentStatus.FAILED,
    failureReason := some "Payment failed" }

/-- Fixture: a registration whose single payment attempt was reported
failed. -/
def failedPaymentState : PayState :=
  { payments := [failedPayment0]
    regs :=
      [ { id := 1, totalAmount := 5000, totalPaid := 0,
          paymentStatus := RegPaymentStatus.PENDING, razorpayPaymentId := none } ] }

/-- Fixture: a paid registration document as stored after checkout,
used to exercise resubmissions of the registration form. -/
def paidWorkshopRegistration : Registration :=
  { registrationType := "WORKSHOP_CONFERENCE"
    addWorkshop := true
    selectedWorkshop := some "pocus"
    workshopAddOn := 2000
    accompanyingPersons := 0
    accompanyingBase := 0
    accompanyingGST := 0
    addAoaCourse := false
    aoaCourseBase := 0
    aoaCourseGST := 0
    addLifeMembership := false
    lifeMembershipBase := 0
    bookingPhase := "EARLY_BIRD"
    basePrice := 11000
    packageBase := 13000
    packageGST := 2340
    totalBase := 13000
    totalGST := 2340
    subtotalWithGST := 15340
    processingFee := 299
    totalAmount := 15639
    couponCode := none
    couponDiscount := 0
    lifetimeMembershipId := none
    totalPaid := 15639
    paymentStatus := RegPaymentStatus.PAID }

/-- Fixture: a paid registration that was priced with the AOACON5123
coupon applied. -/
def paidCouponRegistration : Registration :=
  { paidWorkshopRegistration with
    couponCode := some "AOACON5123"
    couponDiscount := 500
    totalPaid := 15039
    totalAmount := 15039 }

/-- Fixture: a resubmission of the checkout form that asks to drop
every add-on and carries no coupon code. -/
def dropEverythingRequest : UpsertRequest :=
  { selectedWorkshop := none
    accompanyingPersons := 0
    addWorkshop := false
    addAoaCourse := false
    addLifeMembership := false
    couponCode := none }

/-- Fixture: webhook payload for a captured payment on order ord1. -/
def capturedEvent : WebhookEvent :=
  { eventType := "payment.captured"
    paymentEntityOrderId := some "ord1"
    orderEntityId := none
    paymentEntityId := some "pay1" }

/-- Fixture: the document produced by resubmitting the paid couponed
registration without a coupon code. -/
def resubmittedCouponResult : Registration :=
  upsertResult "NON_AOA" "EARLY_BIRD" "LM1" (some paidCouponRegistration) dropEverythingRequest

/-- C4: for role NON_AOA in EARLY_BIRD with the workshop add-on, one
accompanying person and no coupon, the upsert pricing computes exactly
basePrice 11000, workshop add-on 2000, packageBase 13000, totalBase
20000, GST 3600, subtotalWithGST 23600, processingFee 460 and
totalAmount 24060. -/
theorem c4_pricing_example_exact :
    (registrationUpsert "NON_AOA" "EARLY_BIRD" 0 "LM1" none
        { selectedWorkshop := some "pocus", accompanyingPersons := 1, addWorkshop := true,
          addAoaCourse := false, addLifeMembership := false, couponCode := none }).map
      (fun r => (r.basePrice, r.workshopAddOn, r.packageBase, r.totalBase, r.totalGST,
        r.subtotalWithGST, r.processingFee, r.totalAmount)) =
    Except.ok (11000, 2000, 13000, 20000, 3600, 23600, 460, 24060) := by rfl

/-- C8: for every role in AOA, NON_AOA, PGS and every phase, the
workshop add-on price is the workshop package total minus the base
conference price floored at 0 (and 0 when the package total is 0),
and likewise the life-membership add-on price is derived from the
combo package total, not hardcoded. -/
theorem c8_addon_prices_subtractive (role phase : String)
    (hr : role ∈ ["AOA", "NON_AOA", "PGS"])
    (hp : phase ∈ ["EARLY_BIRD", "REGULAR", "SPOT"]) :
    getWorkshopAddOnPrice role phase =
      (if 0 < getWorkshopTotalPrice role phase then
        getWorkshopTotalPrice role phase - getConferencePrice role phase else 0) ∧
    getLifeMembershipAddOnPrice role phase =
      (if 0 < getComboPrice role phase then
        getComboPrice role phase - getConferencePrice role phase else 0) := by
  fin_cases hr <;> fin_cases hp <;> decide

/-- Witness for C8 at role NON_AOA, phase EARLY_BIRD. -/
theorem c8_addon_prices_subtractive_witness :
    getWorkshopAddOnPrice "NON_AOA" "EARLY_BIRD" =
      (if 0 < getWorkshopTotalPrice "NON_AOA" "EARLY_BIRD" then
        getWorkshopTotalPrice "NON_AOA" "EARLY_BIRD" -
          getConferencePrice "NON_AOA" "EARLY_BIRD" else 0) ∧
    getLifeMembershipAddOnPrice "NON_AOA" "EARLY_BIRD" =
      (if 0 < getComboPrice "NON_AOA" "EARLY_BIRD" then
        getComboPrice "NON_AOA" "EARLY_BIRD" -
          getConferencePrice "NON_AOA" "EARLY_BIRD" else 0) :=
  c8_addon_prices_subtractive "NON_AOA" "EARLY_BIRD" (by decide) (by decide)

/-- C5: on a PAID registration, every add-on flag that is already true
stays true after any later upsert submission, whether the submission
is rejected (store untouched) or accepted (union merge), for
addWorkshop, addAoaCourse and addLifeMembership alike. -/
theorem c5_sticky_addons (userRole currentPhase : String) (cnt : Nat) (fresh : String)
    (ex : Registration) (req : UpsertRequest)
    (hpaid : ex.paymentStatus = RegPaymentStatus.PAID) :
    (ex.addWorkshop = true →
      (storedAfterUpsert userRole currentPhase cnt fresh ex req).addWorkshop = true) ∧
    (ex.addAoaCourse = true →
      (storedAfterUpsert userRole currentPhase cnt fresh ex req).addAoaCourse = true) ∧
    (ex.addLifeMembership = true →
      (storedAfterUpsert userRole currentPhase cnt fresh ex req).addLifeMembership = true) := by
  unfold storedAfterUpsert registrationUpsert
  cases h : upsertError userRole currentPhase cnt (some ex) req with
  | some e => exact ⟨fun hh => hh, fun hh => hh, fun hh => hh⟩
  | none =>
    refine ⟨fun hh => ?_, fun hh => ?_, fun hh => ?_⟩ <;>
      simp [upsertResult, upsertWantsWorkshop, upsertWantsAoaCourse, upsertWantsLifeMembership,
        upsertIsPaid, exAddWorkshop, exAddAoaCourse, exAddLifeMembership, hpaid, hh]

/-- Witness for C5: a paid workshop registration resubmitted with
every add-on dropped still stores addWorkshop true. -/
theorem c5_sticky_addons_witness :
    (storedAfterUpsert "NON_AOA" "EARLY_BIRD" 0 "LM1" paidWorkshopRegistration
      dropEverythingRequest).addWorkshop = true :=
  (c5_sticky_addons "NON_AOA" "EARLY_BIRD" 0 "LM1" paidWorkshopRegistration
    dropEverythingRequest (by rfl)).1 (by rfl)

/-- C10: a coupon is not sticky.  When the resubmitted form carries no
coupon code, the upsert behaves exactly as if the stored coupon were
absent, and any accepted result has the coupon cleared and the total
recomputed without the discount, regardless of payment status. -/
theorem c10_coupon_not_sticky (userRole currentPhase : String) (cnt : Nat) (fresh : String)
    (ex : Registration) (req : UpsertRequest)
    (hreq : req.couponCode = none) (hdisc : 0 < ex.couponDiscount) :
    registrationUpsert userRole currentPhase cnt fresh (some ex) req =
      registrationUpsert userRole currentPhase cnt fresh
        (some { ex with couponCode := none, couponDiscount := 0 }) req ∧
    ∀ r, registrationUpsert userRole currentPhase cnt fresh (some ex) req = .ok r →
      r.couponCode = none ∧ r.couponDiscount = 0 := by
  constructor
  · cases ex
    rfl
  · intro r h
    unfold registrationUpsert at h
    cases he : upsertError userRole currentPhase cnt (some ex) req with
    | some e =>
      rw [he] at h
      exact absurd h (by simp)
    | none =>
      rw [he] at h
      injection h with h2
      subst h2
      constructor <;>
        simp [upsertResult, upsertCouponResolution, normalizeCouponCode, hreq]

/-- Witness for C10: resubmitting a PAID couponed registration without
a coupon clears the coupon fields; the accepted document also shows
the upward repricing, from 15039 with the 500 discount to 15639
without it, flipping the status back to PENDING. -/
theorem c10_coupon_not_sticky_witness :
    (registrationUpsert "NON_AOA" "EARLY_BIRD" 0 "LM1" (some paidCouponRegistration)
        dropEverythingRequest =
      registrationUpsert "NON_AOA" "EARLY_BIRD" 0 "LM1"
        (some { paidCouponRegistration with couponCode := none, couponDiscount := 0 })
        dropEverythingRequest) ∧
    resubmittedCouponResult.couponCode = none ∧
    resubmittedCouponResult.couponDiscount = 0 ∧
    paidCouponRegistration.paymentStatus = RegPaymentStatus.PAID ∧
    paidCouponRegistration.totalAmount = 15039 ∧
    resubmittedCouponResult.totalAmount = 15639 ∧
    resubmittedCouponResult.paymentStatus = RegPaymentStatus.PENDING := by
  have h := c10_coupon_not_sticky "NON_AOA" "EARLY_BIRD" 0 "LM1" paidCouponRegistration
    dropEverythingRequest (by rfl) (by decide)
  exact ⟨h.1, (h.2 resubmittedCouponResult (by rfl)).1,
    (h.2 resubmittedCouponResult (by rfl)).2, by rfl, by rfl, by rfl, by rfl⟩

theorem findPayment_updateFirstPayment (ps : List Payment) (oid : String)
    (f : Payment → Payment) (hf : ∀ q, (f q).razorpayOrderId = q.razorpayOrderId) :
    findPayment (updateFirstPayment ps oid f) oid = (findPayment ps oid).map f := by
  induction ps with
  | nil => rfl
  | cons p rest ih =>
    by_cases h : p.razorpayOrderId = oid
    · simp [findPayment, updateFirstPayment, h, hf p, List.find?_cons_of_pos]
    · simp only [findPayment, updateFirstPayment, if_neg h] at ih ⊢
      rw [List.find?_cons_of_neg, List.find?_cons_of_neg]
      · exact ih
      · simpa using h
      · simpa using h

theorem find?_updateReg (regs : List RegPayView) (rid : Nat) (f : RegPayView → RegPayView)
    (hid : ∀ r, (f r).id = r.id) :
    (updateReg regs rid f).find? (fun r => r.id = rid) =
      (regs.find? (fun r => r.id = rid)).map f := by
  induction regs with
  | nil => rfl
  | cons r rest ih =>
    by_cases h : r.id = rid
    · simp [updateReg, h, hid r, List.find?_cons_of_pos]
    · simp only [updateReg, List.map_cons, if_neg h] at ih ⊢
      rw [List.find?_cons_of_neg, List.find?_cons_of_neg]
      · exact ih
      · simpa using h
      · simpa using h

theorem updateReg_idem (regs : List RegPayView) (rid : Nat) (f : RegPayView → RegPayView)
    (hid : ∀ r, (f r).id = r.id) (hff : ∀ r, f (f r) = f r) :
    updateReg (updateReg regs rid f) rid f = updateReg regs rid f := by
  induction regs with
  | nil => rfl
  | cons r rest ih =>
    by_cases h : r.id = rid
    · simp [updateReg, h, hid r, hff r] at ih ⊢
      exact ih
    · simp [updateReg, h] at ih ⊢
      exact ih

theorem urpsWrite_id (S : RegPaymentStatus) (T : Nat) (pid : Option String) (r : RegPayView) :
    (urpsWrite S T pid r).id = r.id := by
  cases pid <;> rfl

theorem urpsWrite_totalAmount (S : RegPaymentStatus) (T : Nat) (pid : Option String)
    (r : RegPayView) : (urpsWrite S T pid r).totalAmount = r.totalAmount := by
  cases pid <;> rfl

theorem urpsWrite_idem (S : RegPaymentStatus) (T : Nat) (pid : Option String) (r : RegPayView) :
    urpsWrite S T pid (urpsWrite S T pid r) = urpsWrite S T pid r := by
  cases pid <;> rfl

theorem urps_payments (st : PayState) (rid : Nat) (pid : Option String) :
    (updateRegistrationPaymentStatus st rid pid).payments = st.payments := by
  unfold updateRegistrationPaymentStatus
  cases st.regs.find? (fun r => r.id = rid) <;> rfl

theorem urps_none (st : PayState) (rid : Nat) (pid : Option String)
    (hfind : st.regs.find? (fun r => r.id = rid) = none) :
    updateRegistrationPaymentStatus st rid pid = st := by
  unfold updateRegistrationPaymentStatus
  rw [hfind]

theorem urps_some (st : PayState) (rid : Nat) (pid : Option String) (reg : RegPayView)
    (hfind : st.regs.find? (fun r => r.id = rid) = some reg) :
    updateRegistrationPaymentStatus st rid pid =
      { st with
        regs := updateReg st.regs rid
          (urpsWrite
            (if reg.totalAmount ≤ successSum st.payments rid then RegPaymentStatus.PAID
              else RegPaymentStatus.PENDING)
            (successSum st.payments rid) pid) } := by
  unfold updateRegistrationPaymentStatus
  rw [hfind]

theorem urps_idem (st : PayState) (rid : Nat) (pid : Option String) :
    updateRegistrationPaymentStatus (updateRegistrationPaymentStatus st rid pid) rid pid =
      updateRegistrationPaymentStatus st rid pid := by
  cases hfind : st.regs.find? (fun r => r.id = rid) with
  | none =>
    rw [urps_none st rid pid hfind, urps_none st rid pid hfind]
  | some reg =>
    have h1 := urps_some st rid pid reg hfind
    have hfind2 :
        (updateRegistrationPaymentStatus st rid pid).regs.find? (fun r => r.id = rid) =
          some (urpsWrite
            (if reg.totalAmount ≤ successSum st.payments rid then RegPaymentStatus.PAID
              else RegPaymentStatus.PENDING)
            (successSum st.payments rid) pid reg) := by
      rw [h1]
      show (updateReg st.regs rid _).find? _ = _
      rw [find?_updateReg st.regs rid
        (urpsWrite
          (if reg.totalAmount ≤ successSum st.payments rid then RegPaymentStatus.PAID
            else RegPaymentStatus.PENDING)
          (successSum st.payments rid) pid)
        (urpsWrite_id _ _ _), hfind]
      rfl
    have h2 := urps_some (updateRegistrationPaymentStatus st rid pid) rid pid _ hfind2
    rw [h2]
    rw [urps_payments st rid pid, urpsWrite_totalAmount] at h2 ⊢
    rw [h1]
    simp only []
    rw [updateReg_idem st.regs rid _ (urpsWrite_id _ _ _) (urpsWrite_idem _ _ _)]

theorem webhookWrite_orderId (evPid : Option String) (p : Payment) :
    (webhookWrite evPid p).razorpayOrderId = p.razorpayOrderId := by
  cases evPid <;> rfl

theorem webhookWrite_status (evPid : Option String) (p : Payment) :
    (webhookWrite evPid p).status = PaymentStatus.SUCCESS := by
  cases evPid <;> rfl

theorem webhookWrite_paymentType (evPid : Option String) (p : Payment) :
    (webhookWrite evPid p).paymentType = p.paymentType := by
  cases evPid <;> rfl

theorem webhookWrite_registrationId (evPid : Option String) (p : Payment) :
    (webhookWrite evPid p).registrationId = p.registrationId := by
  cases evPid <;> rfl

theorem webhookApply_none (st : PayState) (oid : String) (evPid : Option String)
    (hp : findPayment st.payments oid = none) : webhookApply st oid evPid = st := by
  unfold webhookApply
  rw [hp]

theorem webhookApply_of_success (st : PayState) (oid : String) (evPid : Option String)
    (payment : Payment) (hp : findPayment st.payments oid = some payment)
    (hs : payment.status = PaymentStatus.SUCCESS) :
    webhookApply st oid evPid =
      (if payment.paymentType = "REGISTRATION" then
        match payment.registrationId with
        | some rid => updateRegistrationPaymentStatus st rid evPid
        | none => st
      else st) := by
  unfold webhookApply
  rw [hp]
  simp [hs]

theorem webhookApply_of_created (st : PayState) (oid : String) (evPid : Option String)
    (payment : Payment) (hp : findPayment st.payments oid = some payment)
    (hs : payment.status ≠ PaymentStatus.SUCCESS) :
    webhookApply st oid evPid =
      (if payment.paymentType = "REGISTRATION" then
        match payment.registrationId with
        | some rid =>
          updateRegistrationPaymentStatus
            { st with payments := updateFirstPayment st.payments oid (webhookWrite evPid) }
            rid evPid
        | none =>
          { st with payments := updateFirstPayment st.payments oid (webhookWrite evPid) }
      else { st with payments := updateFirstPayment st.payments oid (webhookWrite evPid) }) := by
  unfold webhookApply
  rw [hp]
  simp [hs]


theorem webhookApply_idem (st : PayState) (oid : String) (evPid : Option String) :
    webhookApply (webhookApply st oid evPid) oid evPid = webhookApply st oid evPid := by
  cases hp : findPayment st.payments oid with
  | none =>
    rw [webhookApply_none st oid evPid hp, webhookApply_none st oid evPid hp]
  | some payment =>
    by_cases hsucc : payment.status = PaymentStatus.SUCCESS
    · rw [webhookApply_of_success st oid evPid payment hp hsucc]
      by_cases ht : payment.paymentType = "REGISTRATION"
      · cases hrid : payment.registrationId with
        | some rid =>
          simp only [ht, hrid, if_true]
          have hp2 : findPayment (updateRegistrationPaymentStatus st rid evPid).payments oid =
              some payment := by
            rw [urps_payments]
            exact hp
          rw [webhookApply_of_success _ oid evPid payment hp2 hsucc]
          simp only [ht, hrid, if_true]
          exact urps_idem st rid evPid
        | none =>
          simp only [ht, hrid, if_true]
          rw [webhookApply_of_success st oid evPid payment hp hsucc]
          simp only [ht, hrid, if_true]
      · simp only [ht, if_false]
        rw [webhookApply_of_success st oid evPid payment hp hsucc]
        simp only [ht, if_false]
    · rw [webhookApply_of_created st oid evPid payment hp hsucc]
      have hpU : findPayment
          ({ st with payments := updateFirstPayment st.payments oid (webhookWrite evPid) } :
            PayState).payments oid = some (webhookWrite evPid payment) := by
        show findPayment (updateFirstPayment st.payments oid (webhookWrite evPid)) oid = _
        rw [findPayment_updateFirstPayment st.payments oid (webhookWrite evPid)
          (webhookWrite_orderId evPid), hp]
        rfl
      by_cases ht : payment.paymentType = "REGISTRATION"
      · cases hrid : payment.registrationId with
        | some rid =>
          simp only [ht, hrid, if_true]
          have hp2 : findPayment (updateRegistrationPaymentStatus
              { st with payments := updateFirstPayment st.payments oid (webhookWrite evPid) }
              rid evPid).payments oid = some (webhookWrite evPid payment) := by
            rw [urps_payments]
            exact hpU
          rw [webhookApply_of_success _ oid evPid _ hp2 (webhookWrite_status evPid payment)]
          simp only [webhookWrite_paymentType, webhookWrite_registrationId, ht, hrid, if_true]
          exact urps_idem _ rid evPid
        | none =>
          simp only [ht, hrid, if_true]
          rw [webhookApply_of_success _ oid evPid _ hpU (webhookWrite_status evPid payment)]
          simp only [webhookWrite_paymentType, webhookWrite_registrationId, ht, hrid, if_true]
      · simp only [ht, if_false]
        rw [webhookApply_of_success _ oid evPid _ hpU (webhookWrite_status evPid payment)]
        simp only [webhookWrite_paymentType, ht, if_false]


theorem forall2_success_refl (ps : List Payment) :
    List.Forall₂ (fun p q => p.status = PaymentStatus.SUCCESS → q.status = PaymentStatus.SUCCESS)
      ps ps :=
  List.forall₂_same.mpr (fun _ _ h => h)

theorem forall2_success_updateFirstPayment (ps : List Payment) (oid : String)
    (f : Payment → Payment) (hf : ∀ q, (f q).status = PaymentStatus.SUCCESS) :
    List.Forall₂ (fun p q => p.status = PaymentStatus.SUCCESS → q.status = PaymentStatus.SUCCESS)
      ps (updateFirstPayment ps oid f) := by
  induction ps with
  | nil => exact List.Forall₂.nil
  | cons p rest ih =>
    by_cases h : p.razorpayOrderId = oid
    · simp only [updateFirstPayment, if_pos h]
      exact List.Forall₂.cons (fun _ => hf p) (forall2_success_refl rest)
    · simp only [updateFirstPayment, if_neg h]
      exact List.Forall₂.cons (fun hh => hh) ih

theorem forall2_success_webhookApply (st : PayState) (oid : String) (evPid : Option String) :
    List.Forall₂ (fun p q => p.status = PaymentStatus.SUCCESS → q.status = PaymentStatus.SUCCESS)
      st.payments (webhookApply st oid evPid).payments := by
  cases hp : findPayment st.payments oid with
  | none =>
    rw [webhookApply_none st oid evPid hp]
    exact forall2_success_refl st.payments
  | some payment =>
    by_cases hsucc : payment.status = PaymentStatus.SUCCESS
    · rw [webhookApply_of_success st oid evPid payment hp hsucc]
      by_cases ht : payment.paymentType = "REGISTRATION"
      · cases hrid : payment.registrationId with
        | some rid =>
          simp only [ht, hrid, if_true]
          rw [urps_payments]
          exact forall2_success_refl st.payments
        | none =>
          simp only [ht, hrid, if_true]
          exact forall2_success_refl st.payments
      · simp only [ht, if_false]
        exact forall2_success_refl st.payments
    · rw [webhookApply_of_created st oid evPid payment hp hsucc]
      by_cases ht : payment.paymentType = "REGISTRATION"
      · cases hrid : payment.registrationId with
        | some rid =>
          simp only [ht, hrid, if_true]
          rw [urps_payments]
          exact forall2_success_updateFirstPayment st.payments oid (webhookWrite evPid)
            (webhookWrite_status evPid)
        | none =>
          simp only [ht, hrid, if_true]
          exact forall2_success_updateFirstPayment st.payments oid (webhookWrite evPid)
            (webhookWrite_status evPid)
      · simp only [ht, if_false]
        exact forall2_success_updateFirstPayment st.payments oid (webhookWrite evPid)
          (webhookWrite_status evPid)

/-- C2: the webhook is idempotent under replay.  Processing the same
payload (same raw body, signature and parsed event, hence same gateway
order and payment ids) twice yields exactly the state of processing it
once, so totalPaid is never double-counted; moreover a single delivery
never moves any Payment that is already SUCCESS away from SUCCESS. -/
theorem c2_webhook_replay_idempotent (hmac : String → String → String) (st : PayState)
    (sig : Option String) (rawBody : String) (ev : WebhookEvent) :
    webhookHandler hmac (webhookHandler hmac st sig rawBody ev).2 sig rawBody ev =
      webhookHandler hmac st sig rawBody ev ∧
    List.Forall₂ (fun p q => p.status = PaymentStatus.SUCCESS → q.status = PaymentStatus.SUCCESS)
      st.payments (webhookHandler hmac st sig rawBody ev).2.payments := by
  constructor
  · unfold webhookHandler
    cases sig with
    | none => rfl
    | some s =>
      by_cases hs : s ≠ hmac razorpayWebhookSecret rawBody
      · simp [hs]
      · by_cases he : ev.eventType ≠ "payment.captured" ∧ ev.eventType ≠ "order.paid"
        · simp [hs, he]
        · cases ho : (match ev.paymentEntityOrderId with
              | some o => some o
              | none => ev.orderEntityId : Option String) with
          | none => simp [hs, he, ho]
          | some oid => simp [hs, he, ho, webhookApply_idem]
  · unfold webhookHandler
    cases sig with
    | none => exact forall2_success_refl st.payments
    | some s =>
      dsimp only
      by_cases hs : s ≠ hmac razorpayWebhookSecret rawBody
      · rw [if_pos hs]
        exact forall2_success_refl st.payments
      · rw [if_neg hs]
        by_cases he : ev.eventType ≠ "payment.captured" ∧ ev.eventType ≠ "order.paid"
        · rw [if_pos he]
          exact forall2_success_refl st.payments
        · rw [if_neg he]
          cases ho : (match ev.paymentEntityOrderId with
              | some o => some o
              | none => ev.orderEntityId : Option String) with
          | none => exact forall2_success_refl st.payments
          | some oid => exact forall2_success_webhookApply st oid ev.paymentEntityId

theorem le_maxUsedSeq (l : List Nat) (n : Nat) (h : n ∈ l) : n ≤ maxUsedSeq l := by
  induction l with
  | nil => cases h
  | cons a t ih =>
    rcases List.mem_cons.mp h with h1 | h1
    · subst h1
      exact le_max_left _ _
    · exact le_trans (ih h1) (le_max_right _ _)

theorem probeFreeSeq_not_mem (used : List Nat) (fuel : Nat) :
    ∀ s k, probeFreeSeq used s fuel = some k → k ∉ used := by
  induction fuel with
  | zero =>
    intro s k h
    simp [probeFreeSeq] at h
  | succ n ih =>
    intro s k h
    unfold probeFreeSeq at h
    by_cases h1 : s < 100000
    · rw [if_pos h1] at h
      by_cases h2 : s ∈ used
      · rw [if_pos h2] at h
        exact ih (s + 1) k h
      · rw [if_neg h2] at h
        injection h with hk
        subst hk
        exact h2
    · rw [if_neg h1] at h
      cases h

theorem allocInv_preserved (s : AllocState) (op : AllocOp) (h : allocInv s) :
    allocInv (applyAllocOp s op) := by
  obtain ⟨cnt, used⟩ := s
  obtain ⟨hnodup, hcnt⟩ := h
  cases op with
  | auto =>
    unfold applyAllocOp autoAllocate ensureRegistrationCounter
    dsimp only
    cases cnt with
    | none =>
      have hused : used = [] := hcnt
      subst hused
      exact ⟨by simp, by simp [maxUsedSeq]⟩
    | some c =>
      replace hcnt : ∀ n ∈ used, n ≤ c := hcnt
      simp only [Option.getD_some]
      constructor
      · exact List.nodup_cons.mpr
          ⟨fun hmem => absurd (hcnt _ hmem) (by omega), hnodup⟩
      · intro n hn
        rcases List.mem_cons.mp hn with h1 | h1
        · omega
        · exact le_trans (hcnt _ h1) (by omega)
  | manual startSeq =>
    unfold applyAllocOp manualAllocate
    dsimp only
    cases hfind : findNextAvailableRegistration used startSeq with
    | none => exact ⟨hnodup, hcnt⟩
    | some seq =>
      have hfree : seq ∉ used :=
        probeFreeSeq_not_mem used 100000 (max 1 startSeq) seq hfind
      cases cnt with
      | none =>
        have hused : used = [] := hcnt
        subst hused
        refine ⟨by simp, ?_⟩
        intro n hn
        rcases List.mem_cons.mp hn with h1 | h1
        · omega
        · cases h1
      | some c =>
        replace hcnt : ∀ n ∈ used, n ≤ c := hcnt
        dsimp only
        by_cases hlt : c < seq
        · rw [if_pos hlt]
          refine ⟨List.nodup_cons.mpr ⟨hfree, hnodup⟩, ?_⟩
          intro n hn
          rcases List.mem_cons.mp hn with h1 | h1
          · omega
          · exact le_trans (hcnt _ h1) (by omega)
        · rw [if_neg hlt]
          refine ⟨List.nodup_cons.mpr ⟨hfree, hnodup⟩, ?_⟩
          intro n hn
          rcases List.mem_cons.mp hn with h1 | h1
          · omega
          · exact hcnt _ h1
  | setCounter v =>
    unfold applyAllocOp adminSetCounter
    dsimp only
    by_cases hv : v < maxUsedSeq used
    · rw [if_pos hv]
      exact ⟨hnodup, hcnt⟩
    · rw [if_neg hv]
      refine ⟨hnodup, ?_⟩
      intro n hn
      exact le_trans (le_maxUsedSeq used n hn) (by omega)

theorem allocInv_runAllocOps (s : AllocState) (ops : List AllocOp) (h : allocInv s) :
    allocInv (runAllocOps s ops) := by
  induction ops generalizing s with
  | nil => exact h
  | cons op t ih => exact ih _ (allocInv_preserved s op h)

/-- C3: after any sequence of auto-increment allocations, admin
probe-and-reserve allocations and admin counter updates (each
operation atomic, matching the single-document atomicity of the
store), the issued suffixes are pairwise distinct and the stored
counter is at least the maximum suffix in use; the counter-set
endpoint rejects any value below that maximum. -/
theorem c3_allocator_invariant (ops : List AllocOp) (v : Nat) :
    allocInv (runAllocOps initialAllocState ops) ∧
    (v < maxUsedSeq (runAllocOps initialAllocState ops).used →
      adminSetCounter (runAllocOps initialAllocState ops) v =
        .error "Counter cannot be set below max used.") := by
  constructor
  · exact allocInv_runAllocOps initialAllocState ops ⟨List.nodup_nil, rfl⟩
  · intro hv
    unfold adminSetCounter
    rw [if_pos hv]

/-- Witness for C3 on a concrete operation sequence mixing both
allocation paths and a counter update. -/
theorem c3_allocator_invariant_witness :
    allocInv (runAllocOps initialAllocState
      [AllocOp.auto, AllocOp.auto, AllocOp.manual 1, AllocOp.setCounter 10, AllocOp.auto]) ∧
    adminSetCounter (runAllocOps initialAllocState
      [AllocOp.auto, AllocOp.auto, AllocOp.manual 1, AllocOp.setCounter 10, AllocOp.auto]) 2 =
      .error "Counter cannot be set below max used." :=
  ⟨(c3_allocator_invariant [AllocOp.auto, AllocOp.auto, AllocOp.manual 1, AllocOp.setCounter 10,
      AllocOp.auto] 2).1,
    (c3_allocator_invariant [AllocOp.auto, AllocOp.auto, AllocOp.manual 1, AllocOp.setCounter 10,
      AllocOp.auto] 2).2 (by decide)⟩

theorem reconcileWrite_orderId (cid : String) (p : Payment) :
    (reconcileWrite cid p).razorpayOrderId = p.razorpayOrderId := rfl

theorem reconcileWrite_status (cid : String) (p : Payment) :
    (reconcileWrite cid p).status = PaymentStatus.SUCCESS := rfl

/-- C7 (amended): the webhook and the admin reconciliation never move
a Payment that is already SUCCESS away from SUCCESS; but terminality
does not hold across all endpoints, because the failure-report
endpoint overwrites the found Payment to FAILED unconditionally (even
from SUCCESS) and the verify endpoint overwrites it to SUCCESS
unconditionally after a valid signature (even from FAILED). -/
theorem c7_payment_status_not_terminal
    (hmac : String → String → String) (st : PayState) (sig : Option String)
    (rawBody : String) (ev : WebhookEvent) (oid : String) (cid : Option String)
    (pid : String) (desc : Option String) (p : Payment) :
    List.Forall₂ (fun a b => a.status = PaymentStatus.SUCCESS → b.status = PaymentStatus.SUCCESS)
      st.payments (webhookHandler hmac st sig rawBody ev).2.payments ∧
    List.Forall₂ (fun a b => a.status = PaymentStatus.SUCCESS → b.status = PaymentStatus.SUCCESS)
      st.payments (reconcileOrder st oid cid).2.payments ∧
    (findPayment st.payments oid = some p →
      findPayment ((reportFailed st oid desc).2).payments oid = some (failWrite desc p)) ∧
    (findPayment st.payments oid = some p →
      findPayment ((verifyPayment hmac st oid pid
          (hmac razorpayKeySecret (oid ++ "|" ++ pid))).2).payments oid =
        some (verifyWrite pid (hmac razorpayKeySecret (oid ++ "|" ++ pid)) p)) := by
  refine ⟨?_, ?_, ?_, ?_⟩
  · unfold webhookHandler
    cases sig with
    | none => exact forall2_success_refl st.payments
    | some s =>
      dsimp only
      by_cases hs : s ≠ hmac razorpayWebhookSecret rawBody
      · rw [if_pos hs]
        exact forall2_success_refl st.payments
      · rw [if_neg hs]
        by_cases he : ev.eventType ≠ "payment.captured" ∧ ev.eventType ≠ "order.paid"
        · rw [if_pos he]
          exact forall2_success_refl st.payments
        · rw [if_neg he]
          cases (match ev.paymentEntityOrderId with
              | some o => some o
              | none => ev.orderEntityId : Option String) with
          | none => exact forall2_success_refl st.payments
          | some o => exact forall2_success_webhookApply st o ev.paymentEntityId
  · unfold reconcileOrder
    by_cases ho : oid = ""
    · rw [if_pos ho]
      exact forall2_success_refl st.payments
    · rw [if_neg ho]
      cases cid with
      | none => exact forall2_success_refl st.payments
      | some c =>
        cases hp : findPayment st.payments oid with
        | none => exact forall2_success_refl st.payments
        | some payment =>
          dsimp only
          by_cases hsucc : payment.status ≠ PaymentStatus.SUCCESS
          · rw [if_pos hsucc]
            by_cases ht : payment.paymentType = "REGISTRATION"
            · rw [if_pos ht]
              cases payment.registrationId with
              | some rid =>
                show List.Forall₂ _ _ (updateRegistrationPaymentStatus _ rid (some c)).payments
                rw [urps_payments]
                exact forall2_success_updateFirstPayment st.payments oid (reconcileWrite c)
                  (reconcileWrite_status c)
              | none =>
                exact forall2_success_updateFirstPayment st.payments oid (reconcileWrite c)
                  (reconcileWrite_status c)
            · rw [if_neg ht]
              exact forall2_success_updateFirstPayment st.payments oid (reconcileWrite c)
                (reconcileWrite_status c)
          · rw [if_neg hsucc]
            by_cases ht : payment.paymentType = "REGISTRATION"
            · rw [if_pos ht]
              cases payment.registrationId with
              | some rid =>
                show List.Forall₂ _ _ (updateRegistrationPaymentStatus _ rid (some c)).payments
                rw [urps_payments]
                exact forall2_success_refl st.payments
              | none => exact forall2_success_refl st.payments
            · rw [if_neg ht]
              exact forall2_success_refl st.payments
  · intro hp
    unfold reportFailed
    rw [hp]
    show findPayment (updateFirstPayment st.payments oid (failWrite desc)) oid = _
    rw [findPayment_updateFirstPayment st.payments oid (failWrite desc) (fun q => rfl), hp]
    rfl
  · intro hp
    unfold verifyPayment
    dsimp only
    rw [if_neg (by simp), hp]
    have key : findPayment (updateFirstPayment st.payments oid
        (verifyWrite pid (hmac razorpayKeySecret (oid ++ "|" ++ pid)))) oid =
        some (verifyWrite pid (hmac razorpayKeySecret (oid ++ "|" ++ pid)) p) := by
      rw [findPayment_updateFirstPayment st.payments oid
        (verifyWrite pid (hmac razorpayKeySecret (oid ++ "|" ++ pid))) (fun q => rfl), hp]
      rfl
    dsimp only
    by_cases ht : p.paymentType = "REGISTRATION"
    · rw [if_pos ht]
      cases p.registrationId with
      | some rid =>
        show findPayment (updateRegistrationPaymentStatus _ rid (some pid)).payments oid = _
        rw [urps_payments]
        exact key
      | none => exact key
    · rw [if_neg ht]
      exact key

/-- Witness for C7 (amended) on a FAILED payment: verify with a valid
signature overwrites it to SUCCESS, the failure report overwrites it
again, and webhook plus reconcile preserve SUCCESS payments. -/
theorem c7_payment_status_not_terminal_witness :
    findPayment ((verifyPayment hmacTag failedPaymentState "ord1" "pay9"
        (hmacTag razorpayKeySecret ("ord1" ++ "|" ++ "pay9"))).2).payments "ord1" =
      some (verifyWrite "pay9" (hmacTag razorpayKeySecret ("ord1" ++ "|" ++ "pay9"))
        failedPayment0) ∧
    findPayment ((reportFailed failedPaymentState "ord1" (some "late failure")).2).payments
        "ord1" = some (failWrite (some "late failure") failedPayment0) ∧
    List.Forall₂ (fun a b => a.status = PaymentStatus.SUCCESS → b.status = PaymentStatus.SUCCESS)
      failedPaymentState.payments
      (webhookHandler hmacTag failedPaymentState (some "sig") "body" capturedEvent).2.payments ∧
    List.Forall₂ (fun a b => a.status = PaymentStatus.SUCCESS → b.status = PaymentStatus.SUCCESS)
      failedPaymentState.payments
      (reconcileOrder failedPaymentState "ord1" (some "pay9")).2.payments := by
  have h := c7_payment_status_not_terminal hmacTag failedPaymentState (some "sig") "body" capturedEvent
    "ord1" (some "pay9") "pay9" (some "late failure") failedPayment0
  exact ⟨h.2.2.2 rfl, h.2.2.1 rfl, h.1, h.2.1⟩

/-- Counterexample to C7 as stated: a Payment whose status is SUCCESS
is not terminal; a later client failure report on the same gateway
order overwrites it to FAILED. -/
theorem c7_success_flipped_counterexample :
    ((findPayment successPaymentState.payments "ord1").map Payment.status =
      some PaymentStatus.SUCCESS) ∧
    ((findPayment ((reportFailed successPaymentState "ord1" (some "card declined")).2).payments
        "ord1").map Payment.status = some PaymentStatus.FAILED) := by
  decide

/-- C6: a verify-payment request whose signature differs from the HMAC
of orderId|paymentId under the gateway secret is rejected with a 400
client error and mutates neither the Payment ledger nor any
Registration. -/
theorem c6_verify_rejects_tampered_signature (hmac : String → String → String) (st : PayState)
    (oid pid sig : String) (h : hmac razorpayKeySecret (oid ++ "|" ++ pid) ≠ sig) :
    verifyPayment hmac st oid pid sig = (400, st) := by
  unfold verifyPayment
  dsimp only
  rw [if_pos h]

/-- Witness for C6: a concrete tampered signature is rejected leaving
the state unchanged. -/
theorem c6_verify_rejects_tampered_signature_witness :
    (hmacTag razorpayKeySecret ("ord1" ++ "|" ++ "pay1") ≠ "tampered") ∧
    verifyPayment hmacTag pendingPaymentState "ord1" "pay1" "tampered" =
      (400, pendingPaymentState) :=
  ⟨by decide,
    c6_verify_rejects_tampered_signature hmacTag pendingPaymentState "ord1" "pay1" "tampered"
      (by decide)⟩

/-- Counterexample to C9 as stated: the webhook does not always answer
200; a request whose header signature does not match the HMAC of the
raw body is answered 400. -/
theorem c9_webhook_invalid_signature_counterexample :
    (webhookHandler hmacTag pendingPaymentState (some "forged") "rawbody" capturedEvent).1 = 400 ∧
    ¬ ((webhookHandler hmacTag pendingPaymentState (some "forged") "rawbody"
        capturedEvent).1 = 200) := by
  decide

/-- C9 (amended): the webhook acknowledges with 200 every request
whose header signature matches the HMAC of the raw body under the
webhook secret, whatever the event type and whether or not the order
or payment is known; only a missing or mismatched signature is
answered with 400 (and a thrown processing error with 500, outside
this pure model). -/
theorem c9_webhook_ack_valid_signature (hmac : String → String → String) (st : PayState)
    (body : String) (ev : WebhookEvent) :
    (webhookHandler hmac st (some (hmac razorpayWebhookSecret body)) body ev).1 = 200 := by
  unfold webhookHandler
  dsimp only
  rw [if_neg (by simp)]
  by_cases he : ev.eventType ≠ "payment.captured" ∧ ev.eventType ≠ "order.paid"
  · rw [if_pos he]
  · rw [if_neg he]
    cases (match ev.paymentEntityOrderId with
        | some o => some o
        | none => ev.orderEntityId : Option String) <;> rfl

/-- C1: evaluation at the failing input.  The fixture satisfies the
ledger invariant; the legacy failure-report route then writes
paymentStatus FAILED directly onto the fully paid Registration,
breaking the PAID-iff-covered half, and the webhook-era failure
report on the succeeded order breaks the totalPaid-equals-SUCCESS-sum
half by flipping the SUCCESS payment without recomputing. -/
theorem c1_ledger_invariant_violated_by_failed_report :
    ledgerInv paidLedgerState ∧
    ¬ ledgerInv (reportFailedLegacy paidLedgerState "order_B" none).2 ∧
    ((reportFailedLegacy paidLedgerState "order_B" none).2.regs.map RegPayView.paymentStatus =
      [RegPaymentStatus.FAILED]) ∧
    ¬ ledgerInv (reportFailed paidLedgerState "order_A" none).2 := by
  decide

end AOA
